import Mathlib

/-!
Verification development for the RLOps repository (DDPG training pipeline).

The TypeScript sources are shallowly embedded over exact rationals:

* `SimState`, `StepResult`, `Experience` mirror the interfaces of `types.ts`
  and the environment module.
* `PointMass1DEnv` embeds the standalone environment class
  (`reset`, `getStateVector`, `step`).
* `DDPGSimulator` embeds the monolithic `DDPGSimulator` class of
  `services/rlEngine.ts` (its own `reset`, unnormalized `getStateVector`,
  in-line physics, action selection, learning-phase gate, epsilon decay,
  target-network soft update).
* `DDPGAgent` embeds the `DDPGAgent` class (replay storage, batch sampling,
  train gate, epsilon decay, target-network soft update).

Neural-network forward passes and gradient/optimizer steps are kept opaque:
they appear as arbitrary function parameters where a claim quantifies over
them, never as stubs pretending a fixed value.
-/

namespace RLOps

/-- The environment's full physical state (`SimState` in `types.ts`). -/
structure SimState where
  position : ℚ
  velocity : ℚ
  target : ℚ
deriving DecidableEq, Repr

/-- Result of one environment step (`EnvStepResult`). -/
structure StepResult where
  nextState : SimState
  reward : ℚ
  done : Bool
deriving DecidableEq, Repr

/-- A replay-buffer transition (`Experience` in `types.ts`). -/
structure Experience where
  s : List ℚ
  a : List ℚ
  r : ℚ
  ns : List ℚ
  d : Bool
deriving DecidableEq, Repr

/-- A concrete inhabitant of `Experience`, used for total list indexing. -/
def defaultExperience : Experience :=
  { s := [], a := [], r := 0, ns := [], d := false }

namespace PointMass1DEnv

/-- Mutable-state wrapper: `PointMass1DEnv` holds a current `SimState`. -/
structure EnvState where
  state : SimState
deriving DecidableEq, Repr

/-- `reset()` body: `position = (Math.random() - 0.5) * 1.8`, `velocity = 0`,
`target = (Math.random() - 0.5) * 1.8`; the two `Math.random()` draws are the
parameters `r1 r2 ∈ [0,1)`. -/
def reset (r1 r2 : ℚ) : SimState :=
  { position := (r1 - 1/2) * (18/10)
    velocity := 0
    target := (r2 - 1/2) * (18/10) }

/-- `reset()` together with its side effect `this.state = ...; return this.state`. -/
def resetEnv (r1 r2 : ℚ) (_e : EnvState) : EnvState × SimState :=
  ({ state := reset r1 r2 }, reset r1 r2)

/-- `getStateVector(s)`: `[s.position / 2.5, s.velocity / 1.0, (s.target - s.position) / 2.5]`. -/
def getStateVector (s : SimState) : List ℚ :=
  [s.position / (25/10), s.velocity / 1, (s.target - s.position) / (25/10)]

/-- `step(action)` body: physics, reward shaping (proximity bonus `0.3` below
distance `0.15`, success bonus `1.5` below `0.05`), termination test. -/
def step (s : SimState) (action : ℚ) : StepResult :=
  let newVelocity := s.velocity * (92/100) + action * (1/10)
  let newPosition := s.position + newVelocity
  let dist := |s.target - newPosition|
  let reward0 := max (-2) (-dist)
  let reward1 := if dist < 15/100 then reward0 + 3/10 else reward0
  let reward2 := if dist < 5/100 then reward1 + 3/2 else reward1
  let done := decide (dist < 5/100) || decide (|newPosition| > 28/10)
  { nextState := { position := newPosition, velocity := newVelocity, target := s.target }
    reward := reward2
    done := done }

end PointMass1DEnv

namespace DDPGSimulator

/-- `bufferSize = 10000` in `rlEngine.ts`. -/
def bufferSize : ℕ := 10000

/-- `batchSize = 64` in `rlEngine.ts`. -/
def batchSize : ℕ := 64

/-- `gamma = 0.99`. -/
def gamma : ℚ := 99/100

/-- `tau = 0.005`. -/
def tau : ℚ := 5/1000

/-- `warmupSteps = 250` in `rlEngine.ts`. -/
def warmupSteps : ℕ := 250

/-- `epsilonDecay = 0.997` in `rlEngine.ts`. -/
def epsilonDecay : ℚ := 997/1000

/-- `epsilonMin = 0.05`. -/
def epsilonMin : ℚ := 5/100

/-- `DDPGSimulator.reset()`: same body as the environment's reset. -/
def reset (r1 r2 : ℚ) : SimState :=
  { position := (r1 - 1/2) * (18/10)
    velocity := 0
    target := (r2 - 1/2) * (18/10) }

/-- `DDPGSimulator.getStateVector(s)`:
`[s.position, s.velocity, (s.target - s.position)]` — no normalization. -/
def getStateVector (s : SimState) : List ℚ :=
  [s.position, s.velocity, s.target - s.position]

/-- Action selection of `trainStep` (lines 88-101): pure random draw during
warmup, otherwise actor output plus uniform noise, clamped to `[-1, 1]`.
`rand ∈ [0,1)` is the `Math.random()` draw of the taken branch, `rawAct` the
actor's forward-pass output. -/
def selectAction (stepCount : ℕ) (rawAct rand epsilon : ℚ) : ℚ :=
  if stepCount < warmupSteps then (rand - 1/2) * 2
  else max (-1) (min 1 (rawAct + (rand - 1/2) * 2 * epsilon))

/-- Physics and reward of `trainStep` (lines 104-114): bonuses `0.5` below
distance `0.1` and `1.0` below `0.05`; same termination rule as the env. -/
def physicsStep (s : SimState) (action : ℚ) : StepResult :=
  let newVelocity := s.velocity * (92/100) + action * (1/10)
  let newPosition := s.position + newVelocity
  let dist := |s.target - newPosition|
  let reward0 := max (-2) (-dist)
  let reward1 := if dist < 1/10 then reward0 + 1/2 else reward0
  let reward2 := if dist < 1/20 then reward1 + 1 else reward1
  let done := decide (dist < 1/20) || decide (|newPosition| > 28/10)
  { nextState := { position := newPosition, velocity := newVelocity, target := s.target }
    reward := reward2
    done := done }

/-- Guard of the learning phase (line 132):
`stepCount > warmupSteps && replayBuffer.length > batchSize`. -/
def learnGate (stepCount bufLen : ℕ) : Bool :=
  decide (stepCount > warmupSteps) && decide (bufLen > batchSize)

/-- Epsilon decay (lines 183-185):
`if (epsilon > epsilonMin) { epsilon *= epsilonDecay }`. -/
def epsilonStep (e : ℚ) : ℚ :=
  if epsilonMin < e then e * epsilonDecay else e

/-- Effect of one `trainStep` tick on epsilon: it is touched only inside the
learning branch, where `epsilonStep` runs. -/
def tickEpsilon (learns : Bool) (e : ℚ) : ℚ :=
  if learns then epsilonStep e else e

/-- Epsilon trajectory over ticks from the initial `epsilon = 1.0`;
`ls n` tells whether the learning phase runs on tick `n`. -/
def epsilonTraj (ls : ℕ → Bool) : ℕ → ℚ
  | 0 => 1
  | n + 1 => tickEpsilon (ls n) (epsilonTraj ls n)

/-- Epsilon after `n` consecutive learning updates. -/
def epsilonAfter (n : ℕ) : ℚ := epsilonTraj (fun _ => true) n

end DDPGSimulator

namespace DDPGAgent

/-- `bufferSize = 10000` in the `DDPGAgent` class. -/
def bufferSize : ℕ := 10000

/-- `batchSize = 64` in the `DDPGAgent` class. -/
def batchSize : ℕ := 64

/-- `gamma = 0.99`. -/
def gamma : ℚ := 99/100

/-- `tau = 0.005`. -/
def tau : ℚ := 5/1000

/-- `epsilonDecay = 0.9975` in the `DDPGAgent` class. -/
def epsilonDecay : ℚ := 9975/10000

/-- `epsilonMin = 0.05`. -/
def epsilonMin : ℚ := 5/100

/-- `getAction(stateVector, useNoise)` final action: the actor's raw output
`rawAct`, and when `useNoise` is set, uniform noise scaled by epsilon and a
clamp to `[-1, 1]`; `rand ∈ [0,1)` is the `Math.random()` draw. -/
def getAction (rawAct rand epsilon : ℚ) (useNoise : Bool) : ℚ :=
  if useNoise then max (-1) (min 1 (rawAct + (rand - 1/2) * 2 * epsilon))
  else rawAct

/-- `storeExperience(exp)`: `push` then `shift` once length exceeds capacity. -/
def storeExperience (buf : List Experience) (exp : Experience) : List Experience :=
  let b := buf ++ [exp]
  if bufferSize < b.length then b.tail else b

/-- `Math.floor(Math.random() * length)`: index drawn for one batch slot. -/
def sampleIndex (len : ℕ) (r : ℚ) : ℕ :=
  (⌊r * (len : ℚ)⌋).toNat

/-- The batch-building loop of `train()`: pushes `batchSize` entries
`replayBuffer[Math.floor(Math.random() * replayBuffer.length)]`; `rands i` is
the `Math.random()` draw of iteration `i`. -/
def sampleBatch (buf : List Experience) (rands : ℕ → ℚ) : List Experience :=
  (List.range batchSize).map fun i => buf.getD (sampleIndex buf.length (rands i)) defaultExperience

/-- `train()` guard: with fewer than `batchSize` stored transitions the method
returns immediately; otherwise the learning phase runs. -/
def trainRuns (bufLen : ℕ) : Bool :=
  decide (¬ bufLen < batchSize)

/-- Losses reported by `train()`: the early return hands back
`{actorLoss: 0, criticLoss: 0, avgQ: 0}`; otherwise the computed values. -/
def trainLosses (bufLen : ℕ) (computed : ℚ × ℚ × ℚ) : ℚ × ℚ × ℚ :=
  if bufLen < batchSize then (0, 0, 0) else computed

/-- Epsilon decay at the end of `train()`:
`if (epsilon > epsilonMin) { epsilon *= epsilonDecay }`. -/
def epsilonStep (e : ℚ) : ℚ :=
  if epsilonMin < e then e * epsilonDecay else e

/-- A parameter set as returned by `getWeights()`: a list of tensors, each a
list of scalar elements. -/
abbrev Weights := List (List ℚ)

/-- The four parameter sets held by the agent. -/
structure Networks where
  actorW : Weights
  criticW : Weights
  targetActorW : Weights
  targetCriticW : Weights
deriving DecidableEq, Repr

/-- One tensor of the soft update:
`w.mul(this.tau).add(targetWeights[i].mul(1 - this.tau))`, elementwise. -/
def softUpdateTensor (w tw : List ℚ) : List ℚ :=
  List.zipWith (fun x y => x * tau + y * (1 - tau)) w tw

/-- The mapped soft update over a whole `getWeights()` list. -/
def softUpdateWeights (ws tws : Weights) : Weights :=
  List.zipWith softUpdateTensor ws tws

/-- `updateTargetNetworks()`: `update(actor, targetActor)` then
`update(critic, targetCritic)`; each pair is treated independently. -/
def updateTargetNetworks (n : Networks) : Networks :=
  { n with
    targetActorW := softUpdateWeights n.actorW n.targetActorW
    targetCriticW := softUpdateWeights n.criticW n.targetCriticW }

/-- The per-element critic learning target of `train()`:
`targetQ = rewards.add(nextQ.mul(gamma).mul(1 - terminals))` where
`nextQ = targetCritic.predict([nextStates, targetActor.predict(nextStates)])`.
The target networks appear as opaque forward-pass functions. -/
def criticTargetValue (tActor : List ℚ → ℚ) (tCritic : List ℚ → ℚ → ℚ)
    (r : ℚ) (ns : List ℚ) (d : Bool) : ℚ :=
  r + tCritic ns (tActor ns) * gamma * (1 - (if d then 1 else 0))

/-- Mutable agent state touched by `train()`. The gradient/optimizer updates
of the online networks are opaque; a claim about `train()` quantifies over
them as functions of the online weights. -/
structure AgentState where
  nets : Networks
  buffer : List Experience
  epsilon : ℚ
deriving Repr

/-- The state effect of `train()`: early return below `batchSize`; otherwise
optimizer steps on the online critic and actor weights (the opaque `gradC`,
`gradA`), then `updateTargetNetworks()`, then the epsilon decay. -/
def train (gradA gradC : Weights → Weights) (st : AgentState) : AgentState :=
  if st.buffer.length < batchSize then st
  else
    let nets1 : Networks :=
      { st.nets with
        actorW := gradA st.nets.actorW
        criticW := gradC st.nets.criticW }
    { st with
      nets := updateTargetNetworks nets1
      epsilon := epsilonStep st.epsilon }

end DDPGAgent

end RLOps

namespace RLOps

/-! ## Claims C4, C5, C10: observation function, scenario step, frame condition -/

/-- C4 counterexample: the claim says every observation function returns the
normalized vector `[p/2.5, v/1.0, (t−p)/2.5]`, but `DDPGSimulator.getStateVector`
(`rlEngine.ts` lines 79-81) returns the unnormalized components: at the state
`position = 5/2, velocity = 0, target = 0` it yields `[5/2, 0, -5/2]`, not the
claimed `[1, 0, -1]`. -/
theorem C4_counterexample :
    DDPGSimulator.getStateVector { position := 5/2, velocity := 0, target := 0 } ≠
      [((5:ℚ)/2) / (5/2), 0 / 1, (0 - 5/2) / (5/2)] := by
  norm_num [DDPGSimulator.getStateVector]

/-- C4 amended: the environment's `getStateVector` is a pure function returning
exactly `[position/2.5, velocity/1.0, (target−position)/2.5]`, while the
`DDPGSimulator`'s own `getStateVector` is a pure function returning the
unnormalized `[position, velocity, target−position]`. -/
theorem C4_observation (s : SimState) :
    PointMass1DEnv.getStateVector s =
      [s.position / (5/2), s.velocity / 1, (s.target - s.position) / (5/2)]
    ∧ DDPGSimulator.getStateVector s = [s.position, s.velocity, s.target - s.position] := by
  constructor
  · show [s.position / (25/10), _, _] = _
    norm_num
  · rfl

/-- C5 counterexample: from `position = 0.3, target = −0.2, velocity = 0`, one
step with `action = 0` gives distance `0.5` and hence reward
`max(−2, −0.5) = −0.5`, not the claimed clamped value `−2.0`. -/
theorem C5_counterexample :
    (PointMass1DEnv.step { position := 3/10, velocity := 0, target := -(2/10) } 0).reward ≠
      -2 := by
  norm_num [PointMass1DEnv.step, abs]

/-- C5 amended: from `position = 0.3, target = −0.2, velocity = 0`, one step
with `action = 0` yields `velocity' = 0`, `position' = 0.3`, distance `0.5`,
reward `−0.5` (the `−2.0` clamp is not active), and `terminal = false`. -/
theorem C5_scenario :
    (PointMass1DEnv.step { position := 3/10, velocity := 0, target := -(2/10) } 0).nextState.velocity = 0
    ∧ (PointMass1DEnv.step { position := 3/10, velocity := 0, target := -(2/10) } 0).nextState.position = 3/10
    ∧ |(-(2/10) : ℚ) - (PointMass1DEnv.step { position := 3/10, velocity := 0, target := -(2/10) } 0).nextState.position| = 1/2
    ∧ (PointMass1DEnv.step { position := 3/10, velocity := 0, target := -(2/10) } 0).reward = -(1/2)
    ∧ (PointMass1DEnv.step { position := 3/10, velocity := 0, target := -(2/10) } 0).done = false := by
  have h : PointMass1DEnv.step { position := 3/10, velocity := 0, target := -(2/10) } 0 =
      { nextState := { position := 3/10, velocity := 0, target := -(2/10) }
        reward := -(1/2), done := false } := by
    norm_num [PointMass1DEnv.step, abs]
  rw [h]
  norm_num [abs]

/-- C10: both environment step implementations leave the `target` field of the
state unchanged: the stepped state's target always equals the target before
the step. -/
theorem C10_target_unchanged (s : SimState) (a : ℚ) :
    (PointMass1DEnv.step s a).nextState.target = s.target
    ∧ (DDPGSimulator.physicsStep s a).nextState.target = s.target :=
  ⟨rfl, rfl⟩

/-! ## Claim C8: reset bounds and state replacement -/

/-- C8: for any two uniform draws `r1, r2 ∈ [0,1)`, `reset()` returns a state
with position and target in `[-0.9, 0.9]` and velocity `0`, and the returned
state is exactly the environment's new current state. -/
theorem C8_reset (r1 r2 : ℚ) (h1 : 0 ≤ r1) (h2 : r1 < 1) (h3 : 0 ≤ r2) (h4 : r2 < 1)
    (e : PointMass1DEnv.EnvState) :
    -(9/10) ≤ (PointMass1DEnv.reset r1 r2).position
    ∧ (PointMass1DEnv.reset r1 r2).position ≤ 9/10
    ∧ -(9/10) ≤ (PointMass1DEnv.reset r1 r2).target
    ∧ (PointMass1DEnv.reset r1 r2).target ≤ 9/10
    ∧ (PointMass1DEnv.reset r1 r2).velocity = 0
    ∧ (PointMass1DEnv.resetEnv r1 r2 e).1.state = (PointMass1DEnv.resetEnv r1 r2 e).2 := by
  refine ⟨?_, ?_, ?_, ?_, rfl, rfl⟩ <;>
    simp only [PointMass1DEnv.reset] <;> nlinarith

/-- C8 witness: the theorem applied to the concrete draws `r1 = 0, r2 = 1/2`. -/
theorem C8_reset_witness :
    -(9/10) ≤ (PointMass1DEnv.reset 0 (1/2)).position
    ∧ (PointMass1DEnv.reset 0 (1/2)).position ≤ 9/10
    ∧ -(9/10) ≤ (PointMass1DEnv.reset 0 (1/2)).target
    ∧ (PointMass1DEnv.reset 0 (1/2)).target ≤ 9/10
    ∧ (PointMass1DEnv.reset 0 (1/2)).velocity = 0
    ∧ (PointMass1DEnv.resetEnv 0 (1/2) { state := { position := 0, velocity := 0, target := 0 } }).1.state
        = (PointMass1DEnv.resetEnv 0 (1/2) { state := { position := 0, velocity := 0, target := 0 } }).2 :=
  C8_reset 0 (1/2) (by norm_num) (by norm_num) (by norm_num) (by norm_num) _

/-! ## Claim C9: actions handed to the environment stay in [-1, 1] -/

/-- C9: the action produced on any tick lies in `[-1, 1]`: the warmup random
draw of `DDPGSimulator.trainStep` lands in bounds, its post-warmup branch
clamps explicitly, and `DDPGAgent.getAction` with noise clamps explicitly,
whatever the actor output, epsilon, and step count are. -/
theorem C9_action_bounds (stepCount : ℕ) (rawAct rand epsilon : ℚ)
    (h0 : 0 ≤ rand) (h1 : rand < 1) :
    (-1 ≤ DDPGSimulator.selectAction stepCount rawAct rand epsilon
      ∧ DDPGSimulator.selectAction stepCount rawAct rand epsilon ≤ 1)
    ∧ (-1 ≤ DDPGAgent.getAction rawAct rand epsilon true
      ∧ DDPGAgent.getAction rawAct rand epsilon true ≤ 1) := by
  have hclamp : ∀ x : ℚ, -1 ≤ max (-1) (min 1 x) ∧ max (-1) (min 1 x) ≤ 1 := by
    intro x
    refine ⟨le_max_left _ _, max_le (by norm_num) (min_le_left _ _)⟩
  constructor
  · unfold DDPGSimulator.selectAction
    by_cases h : stepCount < DDPGSimulator.warmupSteps
    · rw [if_pos h]
      constructor <;> nlinarith
    · rw [if_neg h]
      exact hclamp _
  · unfold DDPGAgent.getAction
    rw [if_pos rfl]
    exact hclamp _

/-- C9 witness: the theorem applied at step count `0`, actor output `7`,
random draw `1/2`, epsilon `3`. -/
theorem C9_action_bounds_witness :
    (-1 ≤ DDPGSimulator.selectAction 0 7 (1/2) 3
      ∧ DDPGSimulator.selectAction 0 7 (1/2) 3 ≤ 1)
    ∧ (-1 ≤ DDPGAgent.getAction 7 (1/2) 3 true
      ∧ DDPGAgent.getAction 7 (1/2) 3 true ≤ 1) :=
  C9_action_bounds 0 7 (1/2) 3 (by norm_num) (by norm_num)

/-! ## Claim C6: critic learning target -/

/-- C6: for every batch element, the critic target built by `train()` equals
`reward + 0.99·(1 − terminal)·TargetCritic(nextObservation, TargetActor(nextObservation))`,
and every terminal transition receives the bare reward, with no bootstrapped
future value, whatever the opaque target networks compute. -/
theorem C6_critic_target (tActor : List ℚ → ℚ) (tCritic : List ℚ → ℚ → ℚ)
    (r : ℚ) (ns : List ℚ) (d : Bool) :
    DDPGAgent.criticTargetValue tActor tCritic r ns d
      = r + (99/100) * (1 - (if d then 1 else 0)) * tCritic ns (tActor ns)
    ∧ (d = true → DDPGAgent.criticTargetValue tActor tCritic r ns d = r) := by
  unfold DDPGAgent.criticTargetValue DDPGAgent.gamma
  constructor
  · ring
  · intro hd
    subst hd
    simp only [if_true]
    ring

/-- C6 witness: the theorem applied to a terminal transition with reward `3`
and a target critic constantly equal to `5`: the target is `3`. -/
theorem C6_critic_target_witness :
    DDPGAgent.criticTargetValue (fun _ => 0) (fun _ _ => 5) 3 [] true
      = 3 + (99/100) * (1 - (if true then 1 else 0)) * 5
    ∧ (true = true → DDPGAgent.criticTargetValue (fun _ => 0) (fun _ _ => 5) 3 [] true = 3) :=
  C6_critic_target (fun _ => 0) (fun _ _ => 5) 3 [] true

/-! ## Claim C7: replay memory capacity and FIFO eviction -/

/-- Folding `storeExperience` keeps exactly the most recent `bufferSize`
entries of `buf ++ xs`, provided the start buffer is within capacity. -/
theorem drop_index_congr {α : Type} (l : List α) {n m : ℕ} (h : n = m) :
    List.drop n l = List.drop m l := by
  rw [h]

theorem storeExperience_foldl_drop (xs : List Experience) :
    ∀ buf : List Experience, buf.length ≤ DDPGAgent.bufferSize →
      List.foldl DDPGAgent.storeExperience buf xs
        = (buf ++ xs).drop (buf.length + xs.length - DDPGAgent.bufferSize) := by
  have key : ∀ (l : List Experience) (n m : ℕ) (b : Experience), m = n + 1 →
      List.drop n l = List.drop m (b :: l) := by
    intro l n m b hm
    subst hm
    rw [List.drop_succ_cons]
  induction xs with
  | nil =>
    intro buf h
    rw [List.foldl_nil, List.append_nil, List.length_nil,
      Nat.add_zero, Nat.sub_eq_zero_of_le h, List.drop_zero]
  | cons x t ih =>
    intro buf h
    rw [List.foldl_cons]
    by_cases hc : DDPGAgent.bufferSize < (buf ++ [x]).length
    · have hlen : buf.length = DDPGAgent.bufferSize := by
        simp only [List.length_append, List.length_cons, List.length_nil] at hc
        omega
      have hpos : 0 < buf.length := by
        rw [hlen]
        norm_num [DDPGAgent.bufferSize]
      obtain ⟨b0, rest, rfl⟩ : ∃ b0 rest, buf = b0 :: rest := by
        cases buf with
        | nil => simp at hpos
        | cons b0 rest => exact ⟨b0, rest, rfl⟩
      have hstore : DDPGAgent.storeExperience (b0 :: rest) x = rest ++ [x] := by
        unfold DDPGAgent.storeExperience
        rw [if_pos hc]
        rfl
      simp only [List.length_cons] at hlen
      rw [hstore, ih (rest ++ [x]) (by
        simp only [List.length_append, List.length_cons, List.length_nil]
        omega)]
      simp only [List.length_append, List.length_cons, List.length_nil,
        List.append_assoc, List.singleton_append, List.cons_append, List.nil_append]
      exact key _ _ _ _ (by omega)
    · have hstore : DDPGAgent.storeExperience buf x = buf ++ [x] := by
        unfold DDPGAgent.storeExperience
        rw [if_neg hc]
      simp only [List.length_append, List.length_cons, List.length_nil] at hc
      rw [hstore, ih (buf ++ [x]) (by
        simp only [List.length_append, List.length_cons, List.length_nil]
        omega)]
      simp only [List.length_append, List.length_cons, List.length_nil,
        List.append_assoc, List.singleton_append, List.cons_append, List.nil_append]
      exact drop_index_congr _ (by omega)

/-- C7: the replay memory never exceeds its capacity of 10,000, and after any
sequence of insertions into an initially empty memory exactly the oldest
over-capacity entries are gone: inserting `capacity + k` entries leaves
precisely the newest `capacity` (the first `k` are absent, positionally). -/
theorem C7_replay_fifo :
    (∀ (buf : List Experience) (x : Experience),
        buf.length ≤ DDPGAgent.bufferSize →
        (DDPGAgent.storeExperience buf x).length ≤ DDPGAgent.bufferSize)
    ∧ (∀ xs : List Experience,
        List.foldl DDPGAgent.storeExperience [] xs
          = xs.drop (xs.length - DDPGAgent.bufferSize))
    ∧ (∀ (xs : List Experience) (k : ℕ),
        xs.length = DDPGAgent.bufferSize + k →
        List.foldl DDPGAgent.storeExperience [] xs = xs.drop k) := by
  have hfold : ∀ xs : List Experience,
      List.foldl DDPGAgent.storeExperience [] xs
        = xs.drop (xs.length - DDPGAgent.bufferSize) := by
    intro xs
    have := storeExperience_foldl_drop xs [] (by simp)
    simpa using this
  refine ⟨?_, hfold, ?_⟩
  · intro buf x h
    unfold DDPGAgent.storeExperience
    by_cases hc : DDPGAgent.bufferSize < (buf ++ [x]).length
    · rw [if_pos hc]
      simp only [List.length_tail, List.length_append, List.length_singleton]
      omega
    · rw [if_neg hc]
      simp only [List.length_append, List.length_singleton] at hc ⊢
      omega
  · intro xs k hk
    rw [hfold xs, hk]
    exact drop_index_congr _ (by omega)

/-- C7 witness: the capacity bound applied to a singleton insertion into the
empty memory. -/
theorem C7_replay_fifo_witness :
    (DDPGAgent.storeExperience [] defaultExperience).length ≤ DDPGAgent.bufferSize :=
  C7_replay_fifo.1 [] defaultExperience (by simp)

/-! ## Claim C3: batch-size gate on sampling and learning -/

/-- One sampled index stays inside the buffer whenever the draw is in `[0,1)`
and the buffer is nonempty. -/
theorem sampleIndex_lt (len : ℕ) (r : ℚ) (h0 : 0 ≤ r) (h1 : r < 1) (hlen : 0 < len) :
    DDPGAgent.sampleIndex len r < len := by
  unfold DDPGAgent.sampleIndex
  rw [Int.toNat_lt' (by omega)]
  rw [Int.floor_lt]
  push_cast
  nlinarith [mul_lt_mul_of_pos_right h1 (show (0:ℚ) < (len : ℚ) by exact_mod_cast hlen)]

/-- C3 counterexample: the claim says the learning phase runs whenever the
memory holds at least 64 entries, but `DDPGSimulator.trainStep` gates learning
on `replayBuffer.length > batchSize`: with exactly 64 stored transitions
(and the warmup long over, step count 251) the gate is false and learning is
skipped. -/
theorem C3_counterexample :
    DDPGSimulator.batchSize ≤ 64 ∧ DDPGSimulator.learnGate 251 64 = false := by
  constructor
  · decide
  · decide

/-- C3 amended: in `DDPGAgent`, `train()` runs its learning phase exactly when
the memory holds at least `batchSize = 64` entries, reports zero losses below
that, and its batch always has exactly 64 entries, each drawn from the buffer;
in `DDPGSimulator.trainStep`, however, the learning phase runs exactly when
the step count exceeds the warmup (250) and the memory holds strictly more
than 64 entries — at exactly 64 entries it is skipped. -/
theorem C3_batch_gate :
    (∀ bufLen : ℕ, DDPGAgent.trainRuns bufLen = true ↔ DDPGAgent.batchSize ≤ bufLen)
    ∧ (∀ (bufLen : ℕ) (computed : ℚ × ℚ × ℚ), bufLen < DDPGAgent.batchSize →
        DDPGAgent.trainLosses bufLen computed = (0, 0, 0))
    ∧ (∀ (buf : List Experience) (rands : ℕ → ℚ),
        (DDPGAgent.sampleBatch buf rands).length = DDPGAgent.batchSize)
    ∧ (∀ (buf : List Experience) (rands : ℕ → ℚ), 0 < buf.length →
        (∀ i, 0 ≤ rands i ∧ rands i < 1) →
        ∀ x ∈ DDPGAgent.sampleBatch buf rands, x ∈ buf)
    ∧ (∀ stepCount bufLen : ℕ,
        DDPGSimulator.learnGate stepCount bufLen = true ↔
          DDPGSimulator.warmupSteps < stepCount ∧ DDPGSimulator.batchSize < bufLen) := by
  refine ⟨?_, ?_, ?_, ?_, ?_⟩
  · intro bufLen
    unfold DDPGAgent.trainRuns
    simp [Nat.not_lt]
  · intro bufLen computed h
    unfold DDPGAgent.trainLosses
    rw [if_pos h]
  · intro buf rands
    unfold DDPGAgent.sampleBatch
    simp
  · intro buf rands hlen hr x hx
    unfold DDPGAgent.sampleBatch at hx
    simp only [List.mem_map, List.mem_range] at hx
    obtain ⟨i, _, rfl⟩ := hx
    have hidx : DDPGAgent.sampleIndex buf.length (rands i) < buf.length :=
      sampleIndex_lt buf.length (rands i) (hr i).1 (hr i).2 hlen
    rw [List.getD_eq_getElem buf defaultExperience hidx]
    exact List.getElem_mem hidx
  · intro stepCount bufLen
    unfold DDPGSimulator.learnGate
    simp

/-- C3 witness: with 63 stored transitions the agent's learning phase is
skipped and the reported losses are zero, while the simulator's gate is open
at step count 251 with 65 stored transitions. -/
theorem C3_batch_gate_witness :
    DDPGAgent.trainLosses 63 (7, 8, 9) = (0, 0, 0)
    ∧ DDPGSimulator.learnGate 251 65 = true :=
  ⟨C3_batch_gate.2.1 63 (7, 8, 9) (by decide),
   (C3_batch_gate.2.2.2.2 251 65).2 (by decide)⟩

/-! ## Claim C1: target-network soft synchronization -/

/-- Elementwise content of one soft-updated tensor. -/
theorem softUpdateTensor_getD (w tw : List ℚ) (j : ℕ)
    (hw : j < w.length) (ht : j < tw.length) :
    (DDPGAgent.softUpdateTensor w tw).getD j 0
      = (w.getD j 0) * DDPGAgent.tau + (tw.getD j 0) * (1 - DDPGAgent.tau) := by
  induction w generalizing tw j with
  | nil => simp at hw
  | cons a as ih =>
    cases tw with
    | nil => simp at ht
    | cons b bs =>
      cases j with
      | zero => simp [DDPGAgent.softUpdateTensor]
      | succ j =>
        simp only [DDPGAgent.softUpdateTensor, List.zipWith_cons_cons, List.getD_cons_succ]
        exact ih bs j (by simpa using hw) (by simpa using ht)

/-- Tensor-level content of the mapped soft update. -/
theorem softUpdateWeights_getD (ws tws : DDPGAgent.Weights) (i : ℕ)
    (hw : i < ws.length) (ht : i < tws.length) :
    (DDPGAgent.softUpdateWeights ws tws).getD i []
      = DDPGAgent.softUpdateTensor (ws.getD i []) (tws.getD i []) := by
  induction ws generalizing tws i with
  | nil => simp at hw
  | cons a as ih =>
    cases tws with
    | nil => simp at ht
    | cons b bs =>
      cases i with
      | zero => simp [DDPGAgent.softUpdateWeights]
      | succ i =>
        simp only [DDPGAgent.softUpdateWeights, List.zipWith_cons_cons, List.getD_cons_succ]
        exact ih bs i (by simpa using hw) (by simpa using ht)

/-- C1: whenever the learning phase of `train()` runs (memory at batch size),
the target networks are synchronized unconditionally right after the gradient
updates: every element of the new target-actor parameters equals
`τ·online + (1−τ)·target_old` against the updated online actor, every element
of the new target-critic parameters equals the same combination against the
updated online critic, the two target sets are treated independently, and
`τ = 0.005`. The opaque `gradA`, `gradC` are the optimizer updates applied to
the online weights during this learning step. -/
theorem C1_target_soft_update (gradA gradC : DDPGAgent.Weights → DDPGAgent.Weights)
    (st : DDPGAgent.AgentState) (hready : DDPGAgent.batchSize ≤ st.buffer.length)
    (i j : ℕ) :
    DDPGAgent.tau = 5/1000
    ∧ (i < (gradA st.nets.actorW).length → i < st.nets.targetActorW.length →
        j < ((gradA st.nets.actorW).getD i []).length →
        j < ((st.nets.targetActorW).getD i []).length →
        ((DDPGAgent.train gradA gradC st).nets.targetActorW.getD i []).getD j 0
          = DDPGAgent.tau * (((gradA st.nets.actorW).getD i []).getD j 0)
            + (1 - DDPGAgent.tau) * (((st.nets.targetActorW).getD i []).getD j 0))
    ∧ (i < (gradC st.nets.criticW).length → i < st.nets.targetCriticW.length →
        j < ((gradC st.nets.criticW).getD i []).length →
        j < ((st.nets.targetCriticW).getD i []).length →
        ((DDPGAgent.train gradA gradC st).nets.targetCriticW.getD i []).getD j 0
          = DDPGAgent.tau * (((gradC st.nets.criticW).getD i []).getD j 0)
            + (1 - DDPGAgent.tau) * (((st.nets.targetCriticW).getD i []).getD j 0)) := by
  have hgate : ¬ st.buffer.length < DDPGAgent.batchSize := Nat.not_lt.2 hready
  refine ⟨rfl, ?_, ?_⟩
  · intro h1 h2 h3 h4
    unfold DDPGAgent.train
    rw [if_neg hgate]
    simp only [DDPGAgent.updateTargetNetworks]
    rw [softUpdateWeights_getD _ _ _ h1 h2, softUpdateTensor_getD _ _ _ h3 h4]
    ring
  · intro h1 h2 h3 h4
    unfold DDPGAgent.train
    rw [if_neg hgate]
    simp only [DDPGAgent.updateTargetNetworks]
    rw [softUpdateWeights_getD _ _ _ h1 h2, softUpdateTensor_getD _ _ _ h3 h4]
    ring

/-- A concrete one-element-per-tensor agent state at batch size, for the C1
witness. -/
def c1State : DDPGAgent.AgentState :=
  { nets :=
      { actorW := [[1]], criticW := [[3]], targetActorW := [[2]], targetCriticW := [[4]] }
    buffer := List.replicate 64 defaultExperience
    epsilon := 1 }

/-- C1 witness: the theorem applied to identity optimizer updates on the
concrete state: the single target-actor element becomes `τ·1 + (1−τ)·2` and
the single target-critic element becomes `τ·3 + (1−τ)·4`. -/
theorem C1_target_soft_update_witness :
    ((DDPGAgent.train id id c1State).nets.targetActorW.getD 0 []).getD 0 0
      = DDPGAgent.tau * 1 + (1 - DDPGAgent.tau) * 2
    ∧ ((DDPGAgent.train id id c1State).nets.targetCriticW.getD 0 []).getD 0 0
      = DDPGAgent.tau * 3 + (1 - DDPGAgent.tau) * 4 :=
  ⟨(C1_target_soft_update id id c1State (by simp [c1State, DDPGAgent.batchSize]) 0 0).2.1
      (by simp [c1State]) (by simp [c1State]) (by simp [c1State]) (by simp [c1State]),
   (C1_target_soft_update id id c1State (by simp [c1State, DDPGAgent.batchSize]) 0 0).2.2
      (by simp [c1State]) (by simp [c1State]) (by simp [c1State]) (by simp [c1State])⟩

/-! ## Claim C2: exploration epsilon schedule -/

/-- After 997 decays epsilon is still (barely) above the floor `1/20`. -/
theorem decay_pow_997_gt : (1:ℚ)/20 < ((997:ℚ)/1000)^997 := by
  rw [div_pow, div_lt_div_iff₀ (by norm_num) (by positivity)]
  norm_num

/-- One more decay lands strictly below the floor `1/20`. -/
theorem decay_pow_998_lt : ((997:ℚ)/1000)^998 < 1/20 := by
  rw [div_pow, div_lt_div_iff₀ (by positivity) (by norm_num)]
  norm_num

/-- On an all-learning run the guarded decay acts like a plain geometric decay
for the first 998 updates: the guard stays open until the floor is crossed. -/
theorem epsilonAfter_eq_pow : ∀ n, n ≤ 998 →
    DDPGSimulator.epsilonAfter n = ((997:ℚ)/1000)^n := by
  intro n
  induction n with
  | zero =>
    intro _
    rfl
  | succ n ih =>
    intro hn
    have hval : DDPGSimulator.epsilonAfter n = ((997:ℚ)/1000)^n := ih (by omega)
    have hguard : DDPGSimulator.epsilonMin < DDPGSimulator.epsilonAfter n := by
      rw [hval]
      calc DDPGSimulator.epsilonMin = 1/20 := by norm_num [DDPGSimulator.epsilonMin]
        _ < ((997:ℚ)/1000)^997 := decay_pow_997_gt
        _ ≤ ((997:ℚ)/1000)^n :=
            pow_le_pow_of_le_one (by norm_num) (by norm_num) (by omega)
    show DDPGSimulator.tickEpsilon true (DDPGSimulator.epsilonAfter n) = _
    unfold DDPGSimulator.tickEpsilon DDPGSimulator.epsilonStep
    rw [if_pos rfl, if_pos hguard, hval]
    unfold DDPGSimulator.epsilonDecay
    rw [pow_succ]

/-- C2 counterexample: on a run whose every tick performs a learning update,
epsilon is strictly below its claimed floor `0.05` after 998 updates — the
code multiplies by the decay whenever epsilon is still above the floor, so
the result undershoots it instead of being clamped at `max(0.05, ε·decay)`. -/
theorem C2_counterexample :
    DDPGSimulator.epsilonAfter 998 < DDPGSimulator.epsilonMin := by
  rw [epsilonAfter_eq_pow 998 le_rfl]
  calc ((997:ℚ)/1000)^998 < 1/20 := decay_pow_998_lt
    _ = DDPGSimulator.epsilonMin := by norm_num [DDPGSimulator.epsilonMin]

/-- Epsilon never drops below `epsilonMin · epsilonDecay` on any tick
sequence. -/
theorem epsilonTraj_lower (ls : ℕ → Bool) : ∀ n,
    DDPGSimulator.epsilonMin * DDPGSimulator.epsilonDecay ≤ DDPGSimulator.epsilonTraj ls n := by
  intro n
  induction n with
  | zero =>
    norm_num [DDPGSimulator.epsilonTraj, DDPGSimulator.epsilonMin, DDPGSimulator.epsilonDecay]
  | succ n ih =>
    show _ ≤ DDPGSimulator.tickEpsilon (ls n) (DDPGSimulator.epsilonTraj ls n)
    unfold DDPGSimulator.tickEpsilon DDPGSimulator.epsilonStep
    cases ls n
    · simpa using ih
    · simp only [if_true]
      by_cases hg : DDPGSimulator.epsilonMin < DDPGSimulator.epsilonTraj ls n
      · rw [if_pos hg]
        have hd : (0:ℚ) ≤ DDPGSimulator.epsilonDecay := by
          norm_num [DDPGSimulator.epsilonDecay]
        exact mul_le_mul_of_nonneg_right (le_of_lt hg) hd
      · rw [if_neg hg]
        exact ih

/-- C2 amended: epsilon starts at `1.0` and is monotonically non-increasing
over every tick sequence; it never drops below `epsilonMin · epsilonDecay`
(= 0.04985), though it can undershoot the floor `0.05` itself once; on a tick
with a learning update it becomes `ε·0.997` when `ε > 0.05` and stays
unchanged otherwise (not `max(0.05, ε·0.997)`); on a tick without a learning
update it is unchanged. -/
theorem C2_epsilon_schedule (ls : ℕ → Bool) (n : ℕ) :
    DDPGSimulator.epsilonTraj ls 0 = 1
    ∧ DDPGSimulator.epsilonTraj ls (n+1) ≤ DDPGSimulator.epsilonTraj ls n
    ∧ DDPGSimulator.epsilonMin * DDPGSimulator.epsilonDecay ≤ DDPGSimulator.epsilonTraj ls n
    ∧ (ls n = false → DDPGSimulator.epsilonTraj ls (n+1) = DDPGSimulator.epsilonTraj ls n)
    ∧ (ls n = true → DDPGSimulator.epsilonTraj ls (n+1)
        = (if DDPGSimulator.epsilonMin < DDPGSimulator.epsilonTraj ls n
            then DDPGSimulator.epsilonTraj ls n * DDPGSimulator.epsilonDecay
            else DDPGSimulator.epsilonTraj ls n)) := by
  have hlow := epsilonTraj_lower ls n
  have hpos : (0:ℚ) ≤ DDPGSimulator.epsilonTraj ls n := by
    calc (0:ℚ) ≤ DDPGSimulator.epsilonMin * DDPGSimulator.epsilonDecay := by
          norm_num [DDPGSimulator.epsilonMin, DDPGSimulator.epsilonDecay]
      _ ≤ _ := hlow
  refine ⟨rfl, ?_, hlow, ?_, ?_⟩
  · show DDPGSimulator.tickEpsilon (ls n) (DDPGSimulator.epsilonTraj ls n) ≤ _
    unfold DDPGSimulator.tickEpsilon DDPGSimulator.epsilonStep
    cases ls n
    · simp
    · simp only [if_true]
      by_cases hg : DDPGSimulator.epsilonMin < DDPGSimulator.epsilonTraj ls n
      · rw [if_pos hg]
        exact mul_le_of_le_one_right hpos (by norm_num [DDPGSimulator.epsilonDecay])
      · rw [if_neg hg]
  · intro hls
    show DDPGSimulator.tickEpsilon (ls n) (DDPGSimulator.epsilonTraj ls n) = _
    rw [hls]
    rfl
  · intro hls
    show DDPGSimulator.tickEpsilon (ls n) (DDPGSimulator.epsilonTraj ls n) = _
    rw [hls]
    rfl

/-- C2 witness: the theorem applied to the all-skip tick sequence at tick 0:
epsilon stays at its initial value `1.0`. -/
theorem C2_epsilon_schedule_witness :
    DDPGSimulator.epsilonTraj (fun _ => false) 1 = DDPGSimulator.epsilonTraj (fun _ => false) 0 :=
  (C2_epsilon_schedule (fun _ => false) 0).2.2.2.1 rfl

end RLOps
